import Mathlib

/-!
Verification of the typologynerd Discord glossary bot (`src/bot.py`) against
its natural-language specification. The Python source is shallowly embedded:
the persistent `TypologyEntry` document is a Lean structure, each stateful
handler becomes a pure function from its inputs (entry, actor, scripted user
interaction outcomes) to its resulting state, and the Mongo collections
touched by startup initialization are an explicit `DbState`.
-/

namespace TypologyNerd

/-- The `TypologyEntry` Beanie document from `bot.py` (lines 20-40).
Timestamps are modelled as `Nat` instants; the document id is not needed by
any claim and is omitted. Field defaults mirror the `Field(default=...)`
declarations: `image_url`, `image_attachment`, `reference` default to `""`,
`votes` to `0`, `voters` to `[]`. -/
structure TypologyEntry where
  title : String
  category : String
  topic : String
  description : String
  author_id : Int
  author_name : String
  created_at : Nat
  last_updated : Nat
  image_url : String := ""
  image_attachment : String := ""
  reference : String := ""
  votes : Int := 0
  voters : List Int := []
deriving Repr, DecidableEq

/-- `TypologyEntry.get_image` (bot.py lines 35-37): attachment preferred over URL. -/
def TypologyEntry.get_image (e : TypologyEntry) : String :=
  if e.image_attachment ≠ "" then e.image_attachment else e.image_url

/-- Result of one press of the ⭐ button: the entry afterwards, whether the
vote was accepted, and whether `entry.save()` was called. -/
structure UpvoteResult where
  entry : TypologyEntry
  accepted : Bool
  saved : Bool
deriving Repr, DecidableEq

/-- `EntryView.upvote` (bot.py lines 217-231), restricted to its effect on the
entry at the current page. If the pressing user's id is already in `voters`
the handler sends "already voted" and returns without touching the entry;
otherwise it appends the id to `voters`, increments `votes`, stamps
`last_updated` with the current time and saves. -/
def upvote (e : TypologyEntry) (userId : Int) (now : Nat) : UpvoteResult :=
  if userId ∈ e.voters then
    ⟨e, false, false⟩
  else
    ⟨{ e with voters := e.voters ++ [userId]
            , votes := e.votes + 1
            , last_updated := now }, true, true⟩

/-- A sequence of vote attempts (user id, press time) applied in order. -/
def runVotes (e : TypologyEntry) : List (Int × Nat) → TypologyEntry
  | [] => e
  | (u, t) :: rest => runVotes (upvote e u t).entry rest

/-- The vote-ledger invariant: the vote counter equals the number of ids
recorded in `voters`. -/
def voteInvariant (e : TypologyEntry) : Prop :=
  e.votes = e.voters.length

instance (e : TypologyEntry) : Decidable (voteInvariant e) := by
  unfold voteInvariant; infer_instance

lemma upvote_preserves_invariant (e : TypologyEntry) (u : Int) (now : Nat)
    (h : voteInvariant e) : voteInvariant (upvote e u now).entry := by
  unfold upvote voteInvariant at *
  by_cases hu : u ∈ e.voters <;> simp [hu, h]

lemma runVotes_preserves_invariant (attempts : List (Int × Nat))
    (e : TypologyEntry) (h : voteInvariant e) :
    voteInvariant (runVotes e attempts) := by
  induction attempts generalizing e with
  | nil => exact h
  | cons a rest ih =>
    obtain ⟨u, t⟩ := a
    exact ih _ (upvote_preserves_invariant e u t h)

/-! ## Index reconciliation (bot.py lines 535-559) -/

/-- A value in a Mongo index key document: `1` / `-1` for ordinary keys, and a
string (`"text"`) for the `_fts` component of a text index. -/
inductive IndexVal where
  | num (i : Int)
  | str (s : String)
deriving Repr, DecidableEq

/-- An index key document, as returned in the `key` field of
`collection.index_information()`: an ordered list of (field, value) pairs. -/
abbrev IndexKey := List (String × IndexVal)

/-- The index catalog of the `typology_entries` collection: named indexes with
their key documents. -/
abbrev IndexCatalog := List (String × IndexKey)

/-- Modelled external-store semantics of Mongo's `create_index(keys, name)`:
creating an index whose name already exists with the same key is a no-op;
a name clash with different keys, or the same key under a different name
(`IndexOptionsConflict`), raises an error and creates nothing; otherwise the
index is appended to the catalog. `bot.py` wraps each call in
`try/except`, so an error is observed only as a logged warning. -/
def createIndex (catalog : IndexCatalog) (keys : IndexKey) (name : String) :
    Except String IndexCatalog :=
  if catalog.any fun p => p.1 = name ∧ p.2 = keys then
    .ok catalog
  else if catalog.any fun p => p.1 = name ∧ p.2 ≠ keys then
    .error "IndexKeySpecsConflict"
  else if catalog.any fun p => p.1 ≠ name ∧ p.2 = keys then
    .error "IndexOptionsConflict"
  else
    .ok (catalog ++ [(name, keys)])

/-- The `_fts == 'text'` probe of bot.py line 538: does any existing index key
carry `_fts: "text"`? -/
def hasTextIndex (catalog : IndexCatalog) : Bool :=
  catalog.any fun p => p.2.any fun kv => kv.1 = "_fts" ∧ kv.2 = IndexVal.str "text"

/-- The key document Mongo stores for `[("title", "text")]`. -/
def titleTextKey : IndexKey :=
  [("_fts", IndexVal.str "text"), ("_ftsx", IndexVal.num 1)]

/-- The `index_ops` list of bot.py lines 548-552. -/
def indexOps : List (IndexKey × String) :=
  [ ([("category", IndexVal.num 1)], "category_idx")
  , ([("topic", IndexVal.num 1)], "topic_idx")
  , ([("votes", IndexVal.num (-1))], "popularity_idx") ]

/-- One iteration of the `for keys, name in index_ops` loop (bot.py lines
554-559): if `name` is absent from the `existing_indexes` snapshot, attempt
the create; a create error is logged and skipped, leaving the live catalog
unchanged. The snapshot is the catalog read once before the loop. -/
def reconcileStep (snapshot : IndexCatalog) (catalog : IndexCatalog)
    (op : IndexKey × String) : IndexCatalog :=
  if snapshot.any fun p => p.1 = op.2 then catalog
  else
    match createIndex catalog op.1 op.2 with
    | .ok c => c
    | .error _ => catalog

/-- The index-reconciliation section of `initialize_database` (bot.py lines
535-559): read `index_information()` once, create the text index unless some
text index already exists (create errors logged and skipped), then run the
`index_ops` loop against the same snapshot. No index is ever dropped. -/
def reconcileIndexes (catalog : IndexCatalog) : IndexCatalog :=
  let snapshot := catalog
  let afterText :=
    if hasTextIndex snapshot then catalog
    else
      match createIndex catalog titleTextKey "title_text_idx" with
      | .ok c => c
      | .error _ => catalog
  indexOps.foldl (reconcileStep snapshot) afterText

/-! ## Wizard flows: move (bot.py lines 260-322) and creation (lines 722-831)

Each interactive wait is scripted: a dropdown wait either times out /
is dismissed (the view's stored value stays `None`) or yields a picked value,
and a free-text wait either times out or yields the raw message content,
which the handlers immediately `strip()`. -/

/-- Outcome of `await view.wait()` on a category/topic dropdown: `cancelled`
means the view's value is still `None` (timeout or dismissal); `picked v`
means the user chose option `v` (possibly the synthetic `"__new__"`). -/
inductive SelectOutcome where
  | cancelled
  | picked (value : String)
deriving Repr, DecidableEq

/-- Outcome of a `bot.wait_for('message', timeout=60)` free-text capture:
timeout, or a message whose raw content is `raw`. -/
inductive TextOutcome where
  | timeout
  | entered (raw : String)
deriving Repr, DecidableEq

/-- Python's `str.strip()` on message content: drop leading and trailing
whitespace. -/
def pyStrip (s : String) : String :=
  String.mk (((s.data.dropWhile Char.isWhitespace).reverse.dropWhile
    Char.isWhitespace).reverse)

/-- `EntryView._get_text_input` (bot.py lines 412-434): `None` on timeout,
otherwise the stripped message content (which may be empty). -/
def getTextInput : TextOutcome → Option String
  | .timeout => none
  | .entered raw => some (pyStrip raw)

/-- Scripted user interactions for one run of the move wizard. -/
structure MoveScript where
  categoryChoice : SelectOutcome
  categoryText : TextOutcome
  topicChoice : SelectOutcome
  topicText : TextOutcome
deriving Repr, DecidableEq

/-- Result of the move wizard: the entry afterwards and whether the move
completed (i.e. `entry.save()` ran with the new category/topic). -/
structure MoveResult where
  entry : TypologyEntry
  completed : Bool
deriving Repr, DecidableEq

/-- One pick-or-create step of the move wizard (bot.py lines 274-285 for the
category, 294-305 for the topic): dropdown cancellation aborts; a
`"__new__"` choice falls back to `_get_text_input`, whose `None` (timeout)
or empty result aborts (`if not category: return`); any other dropdown
choice is taken as-is. -/
def resolveStrict (choice : SelectOutcome) (text : TextOutcome) :
    Option String :=
  match choice with
  | .cancelled => none
  | .picked v =>
    if v = "__new__" then
      match getTextInput text with
      | none => none
      | some s => if s = "" then none else some s
    else some v

/-- `EntryView._execute_move_process` (bot.py lines 260-322). Every abort
path (`return` before the mutation block at lines 307-310) leaves the entry
untouched: no available categories, dropdown cancelled, or — for a
`"__new__"` choice — text input that times out or strips to the empty string
(`if not category: return`, `if not topic: return`). Only when both a
category and a topic are obtained does it set `category`, `topic`,
`last_updated` and save. -/
def executeMoveProcess (categories : List String) (script : MoveScript)
    (e : TypologyEntry) (now : Nat) : MoveResult :=
  if categories.isEmpty then ⟨e, false⟩
  else
    match resolveStrict script.categoryChoice script.categoryText with
    | none => ⟨e, false⟩
    | some category =>
      match resolveStrict script.topicChoice script.topicText with
      | none => ⟨e, false⟩
      | some topic =>
        ⟨{ e with category := category, topic := topic, last_updated := now },
         true⟩

/-- Outcome of fetching the replied-to content message in the creation flow
(bot.py lines 789-805): the fetch can fail, the message can be authored by a
bot (rejected), or it yields the description text and an optional image
attachment URL. -/
inductive FetchOutcome where
  | failed
  | botAuthor
  | ok (content : String) (imageAttachment : String)
deriving Repr, DecidableEq

/-- Scripted inputs for one run of `create_definition_flow`. `rawTitle` is
the message text after the `tp define` prefix has been removed;
`duplicateExists` is the result of the case-insensitive title lookup;
`hasReference` is whether the triggering message replies to another one. -/
structure CreationScript where
  rawTitle : String
  duplicateExists : Bool
  categoryChoice : SelectOutcome
  categoryText : TextOutcome
  topicChoice : SelectOutcome
  topicText : TextOutcome
  hasReference : Bool
  fetchOutcome : FetchOutcome
deriving Repr, DecidableEq

/-- One pick-or-create step of the creation flow (bot.py lines 743-760 for
the category, 766-783 for the topic): dropdown cancellation aborts; a
`"__new__"` choice waits for a text message where only a timeout aborts —
the stripped content is used even when it is empty (no emptiness check at
lines 754 and 777). -/
def resolveLoose (choice : SelectOutcome) (text : TextOutcome) :
    Option String :=
  match choice with
  | .cancelled => none
  | .picked v =>
    if v = "__new__" then
      match text with
      | .timeout => none
      | .entered raw => some (pyStrip raw)
    else some v

/-- `create_definition_flow` (bot.py lines 722-831): returns the entry passed
to `entry.insert()`, or `none` when the flow returns without inserting.
Aborts: empty title, duplicate title, dropdown cancelled, text-input timeout
(lines 756-758 and 779-781), no reply reference, content fetch failure, or
bot-authored content. Unlike the move wizard, a `"__new__"` text answer that
strips to the empty string is NOT checked: lines 754 and 777 assign the
stripped content directly and the flow continues. The inserted entry gets
the `TypologyEntry` field defaults (`votes = 0`, `voters = []`, timestamps
from the default factory, `image_url`/`reference` empty). -/
def createDefinitionFlow (script : CreationScript) (authorId : Int)
    (authorName : String) (now : Nat) : Option TypologyEntry :=
  let title := pyStrip script.rawTitle
  if title = "" then none
  else if script.duplicateExists then none
  else
    match resolveLoose script.categoryChoice script.categoryText with
    | none => none
    | some category =>
      match resolveLoose script.topicChoice script.topicText with
      | none => none
      | some topic =>
        if ¬ script.hasReference then none
        else
          match script.fetchOutcome with
          | .failed => none
          | .botAuthor => none
          | .ok content imageAttachment =>
            some { title := title
                 , category := category
                 , topic := topic
                 , description := content
                 , author_id := authorId
                 , author_name := authorName
                 , created_at := now
                 , last_updated := now
                 , image_attachment := imageAttachment }

/-! ## Startup retry loop and `on_ready` (bot.py lines 498-577) -/

/-- What one attempt of the `initialize_database` body does: succeeds, or
raises some exception (unreachable store, migration error, ...). -/
inductive AttemptOutcome where
  | success
  | failure (msg : String)
deriving Repr, DecidableEq

/-- `max_retries = 3` (bot.py line 499). -/
def maxRetries : Nat := 3

/-- The `for attempt in range(max_retries)` loop of `initialize_database`
(bot.py lines 502-568), with the body's outcome at each attempt index given
by `outcomes`. A success returns; a failure sleeps and retries while
attempts remain, and on the last attempt raises
`RuntimeError("Failed to initialize database after 3 attempts")`. -/
def initFrom (outcomes : Nat → AttemptOutcome) : Nat → Nat → Except String Unit
  | _, 0 => .error "Failed to initialize database after 3 attempts"
  | attempt, fuel + 1 =>
    match outcomes attempt with
    | .success => .ok ()
    | .failure _ =>
      if fuel = 0 then .error "Failed to initialize database after 3 attempts"
      else initFrom outcomes (attempt + 1) fuel

/-- `initialize_database` (bot.py lines 498-568) as a function of the
per-attempt outcomes. -/
def initializeDatabase (outcomes : Nat → AttemptOutcome) : Except String Unit :=
  initFrom outcomes 0 maxRetries

/-- Observable state of the bot process after `on_ready` runs. -/
structure BotProcessState where
  initialized : Bool
  servesUserActions : Bool
deriving Repr, DecidableEq

/-- `on_ready` (bot.py lines 570-577): it awaits `initialize_database()`
inside `try/except Exception`; on error it prints "Database init failed" and
returns normally, so the process keeps running and the registered command
and event handlers keep serving user actions either way. -/
def onReady (outcomes : Nat → AttemptOutcome) : BotProcessState :=
  match initializeDatabase outcomes with
  | .ok () => ⟨true, true⟩
  | .error _ => ⟨false, true⟩

/-! ## Legacy migration (bot.py lines 510-533) -/

/-- A document of the legacy `typology_definitions` collection, as a loose
record: every field may be absent. `doc["term"]`-style access on an absent
field raises `KeyError`; `doc.get(field, default)` substitutes the default. -/
structure LegacyDoc where
  term : Option String := none
  text : Option String := none
  author_id : Option Int := none
  author_name : Option String := none
  created_at : Option Nat := none
  last_updated : Option Nat := none
  image_url : Option String := none
  reference : Option String := none
  votes : Option Int := none
  voters : Option (List Int) := none
deriving Repr, DecidableEq

/-- The fields read with mandatory `doc[...]` access in the migration loop
(bot.py lines 518-525): absence of any of them raises `KeyError`. -/
def LegacyDoc.decodable (d : LegacyDoc) : Prop :=
  d.term.isSome ∧ d.text.isSome ∧ d.author_id.isSome ∧ d.author_name.isSome ∧
  d.created_at.isSome ∧ d.last_updated.isSome

instance (d : LegacyDoc) : Decidable d.decodable := by
  unfold LegacyDoc.decodable; infer_instance

/-- The `new_doc` dict built at bot.py lines 517-530, as the entry the insert
produces when every mandatory field is present: `term` becomes `title`,
`text` becomes `description`, `category` and `topic` are the literal
`"General"`, the optional fields take their `.get` defaults, and
`image_attachment` (absent from `new_doc`) takes the schema default `""`. -/
def entryOf (d : LegacyDoc) : TypologyEntry :=
  { title := d.term.getD ""
  , category := "General"
  , topic := "General"
  , description := d.text.getD ""
  , author_id := d.author_id.getD 0
  , author_name := d.author_name.getD ""
  , created_at := d.created_at.getD 0
  , last_updated := d.last_updated.getD 0
  , image_url := d.image_url.getD ""
  , image_attachment := ""
  , reference := d.reference.getD ""
  , votes := d.votes.getD 0
  , voters := d.voters.getD [] }

/-- Building `new_doc` from one legacy document (bot.py lines 517-530):
`KeyError` on the first absent mandatory field, otherwise the transformed
entry. -/
def transformLegacy (d : LegacyDoc) : Except String TypologyEntry :=
  match d.term with
  | none => .error "KeyError: term"
  | some term =>
    match d.text with
    | none => .error "KeyError: text"
    | some text =>
      match d.author_id with
      | none => .error "KeyError: author_id"
      | some authorId =>
        match d.author_name with
        | none => .error "KeyError: author_name"
        | some authorName =>
          match d.created_at with
          | none => .error "KeyError: created_at"
          | some createdAt =>
            match d.last_updated with
            | none => .error "KeyError: last_updated"
            | some lastUpdated =>
              .ok { title := term
                  , category := "General"
                  , topic := "General"
                  , description := text
                  , author_id := authorId
                  , author_name := authorName
                  , created_at := createdAt
                  , last_updated := lastUpdated
                  , image_url := d.image_url.getD ""
                  , image_attachment := ""
                  , reference := d.reference.getD ""
                  , votes := d.votes.getD 0
                  , voters := d.voters.getD [] }

/-- The `async for doc in old_collection.find()` loop (bot.py lines 516-531):
inserts transformed documents one at a time into the current collection
(accumulated in `cur`). There is no per-row error handling: a `KeyError`
propagates out of the loop, and the error value carries the rows inserted
before the failure. -/
def migrateLoop : List LegacyDoc → List TypologyEntry →
    Except (String × List TypologyEntry) (List TypologyEntry)
  | [], cur => .ok cur
  | d :: rest, cur =>
    match transformLegacy d with
    | .error e => .error (e, cur)
    | .ok entry => migrateLoop rest (cur ++ [entry])

/-- The Mongo collections touched by startup initialization:
`typology_definitions` (legacy; `none` when the collection does not exist),
`typology_entries` (current), and `typology_definitions_backup`. -/
structure DbState where
  legacy : Option (List LegacyDoc)
  current : List TypologyEntry
  backup : Option (List LegacyDoc)
deriving Repr, DecidableEq

/-- The migration block of `initialize_database` (bot.py lines 510-533):
if `typology_definitions` exists and `typology_entries` has zero documents,
migrate every legacy document and then rename the legacy collection to
`typology_definitions_backup`; otherwise do nothing. A `KeyError` mid-loop
propagates to the enclosing retry loop, leaving the partial inserts in
place and the legacy collection unrenamed. -/
def migrate (s : DbState) : Except (String × DbState) DbState :=
  match s.legacy with
  | none => .ok s
  | some docs =>
    if s.current.length = 0 then
      match migrateLoop docs s.current with
      | .error (e, inserted) => .error (e, { s with current := inserted })
      | .ok newCur =>
        .ok { legacy := none, current := newCur, backup := some docs }
    else .ok s

/-! ## Session pagination (bot.py lines 146-151, 206-215, 387-410) -/

/-- The cursor state of an `EntryView` session: the frozen result list and the
current page index (`self.page`, initialized to 0). -/
structure SessionState where
  entries : List TypologyEntry
  page : Nat
deriving Repr, DecidableEq

/-- `EntryView.prev_page` (bot.py lines 206-209): `self.page = max(0,
self.page - 1)`. -/
def prevPage (s : SessionState) : SessionState :=
  { s with page := s.page - 1 }

/-- `EntryView.next_page` (bot.py lines 211-215): advance only while
`self.page < len(self.entries) - 1`. With an empty list the Python guard
compares against `-1` and is false; `Nat` truncated subtraction gives the
same guard value. -/
def nextPage (s : SessionState) : SessionState :=
  if s.page < s.entries.length - 1 then { s with page := s.page + 1 } else s

/-- The list/cursor effect of `EntryView.delete_btn` (bot.py lines 399-410)
once authorization has passed: `self.entries.pop(self.page)`; if the list is
now empty the session ends; otherwise if `self.page >= len(self.entries)`
clamp `self.page = max(0, len(self.entries) - 1)`. -/
def deleteCurrent (s : SessionState) : SessionState :=
  let entries := s.entries.eraseIdx s.page
  if entries.isEmpty then { entries := entries, page := s.page }
  else if s.page ≥ entries.length then
    { entries := entries, page := entries.length - 1 }
  else { entries := entries, page := s.page }

/-- The session actions relevant to cursor bounds. -/
inductive PageAction where
  | back
  | forward
  | deleteCur
deriving Repr, DecidableEq

/-- Dispatch one session action to its handler. -/
def applyAction (s : SessionState) : PageAction → SessionState
  | .back => prevPage s
  | .forward => nextPage s
  | .deleteCur => deleteCurrent s

/-- The cursor-bounds invariant: while the session's list is non-empty, the
page index is a valid position in it. -/
def pageInvariant (s : SessionState) : Prop :=
  s.entries ≠ [] → s.page < s.entries.length

instance (s : SessionState) : Decidable (pageInvariant s) := by
  unfold pageInvariant; infer_instance

/-! ## Authorization guards on edit / move / delete
(bot.py lines 233-258, 387-397, 453-485) -/

/-- A user-visible outcome of pressing a guarded button: an ephemeral
rejection message, or the handler proceeding. -/
inductive HandlerOutcome where
  | rejected (msg : String)
  | proceeded
deriving Repr, DecidableEq

/-- `EntryView.edit_btn` (bot.py lines 233-242) followed by
`EditModal.on_submit` (lines 463-474) when the modal is submitted: a
non-author is rejected before the modal opens and the entry is untouched;
the author's submission replaces `description` and `reference`, optionally
sets `image_attachment` from a message attachment, stamps `last_updated`,
and saves. -/
def editFlow (actorId : Int) (e : TypologyEntry) (newDesc newRef : String)
    (attachment : Option String) (now : Nat) : HandlerOutcome × TypologyEntry :=
  if actorId ≠ e.author_id then
    (.rejected "You can only edit your own entries", e)
  else
    (.proceeded,
     { e with description := newDesc
            , reference := newRef
            , image_attachment := attachment.getD e.image_attachment
            , last_updated := now })

/-- `EntryView.move_btn` (bot.py lines 244-258): a non-author is rejected
before `_execute_move_process` starts; the author proceeds into the move
wizard. -/
def moveFlow (actorId : Int) (e : TypologyEntry) (categories : List String)
    (script : MoveScript) (now : Nat) : HandlerOutcome × MoveResult :=
  if actorId ≠ e.author_id then
    (.rejected "You can only move your own entries", ⟨e, false⟩)
  else
    (.proceeded, executeMoveProcess categories script e now)

/-- The `is_mod` test of bot.py line 393: `MOD_ROLE_ID and any(role.id ==
MOD_ROLE_ID for role in interaction.user.roles)` — a configured (non-zero)
moderator role id held by the actor. -/
def isMod (modRoleId : Int) (roles : List Int) : Bool :=
  modRoleId ≠ 0 ∧ modRoleId ∈ roles

/-- `EntryView.delete_btn` (bot.py lines 387-410) acting on session state
`s` whose current page holds entry `e`: an actor who is neither the author
nor a moderator is rejected and neither the store nor the session changes
(`deleted = false`); otherwise `entry.delete()` removes it from the store
and the session list is updated by `deleteCurrent`. -/
def deleteFlow (actorId : Int) (roles : List Int) (modRoleId : Int)
    (s : SessionState) (e : TypologyEntry) :
    HandlerOutcome × SessionState × Bool :=
  if actorId = e.author_id ∨ isMod modRoleId roles then
    (.proceeded, deleteCurrent s, true)
  else
    (.rejected "You can only delete your own entries", s, false)

/-! ## Category / topic deletion (bot.py lines 106-141, 584-615)

`ConfirmButton.callback` and the `delete_category` / `delete_topic` commands
run the same loops: find the entries whose `category` (resp. `topic`) equals
the given name, reassign to `"General"`, and `save()` each. The net effect
on the stored collection is a pointwise update. -/

/-- Effect on the collection of deleting category `name` (bot.py lines
110-118 and 584-593): every entry in that category gets `category` and
`topic` set to `"General"`; no document is removed and no other field —
in particular `last_updated` — is written. -/
def deleteCategory (name : String) (store : List TypologyEntry) :
    List TypologyEntry :=
  store.map fun e =>
    if e.category = name then { e with category := "General", topic := "General" }
    else e

/-- Effect on the collection of deleting topic `name` (bot.py lines 125-132
and 600-610): every entry with that topic gets `topic := "General"`;
`category` and all other fields are untouched and no document is removed. -/
def deleteTopic (name : String) (store : List TypologyEntry) :
    List TypologyEntry :=
  store.map fun e =>
    if e.topic = name then { e with topic := "General" } else e

/-! ## Theorems -/

/-- A sample entry in the initial state produced by entry creation:
`votes = 0`, `voters = []`. -/
def entryA : TypologyEntry :=
  { title := "ENFP", category := "General", topic := "General"
  , description := "an entry", author_id := 1, author_name := "alice"
  , created_at := 0, last_updated := 0 }

/-- C1: the vote counter equals the size of `voters` after any sequence of
vote attempts; an upvote by a user already in `voters` is rejected and
changes nothing, while an upvote by a fresh user appends the id, increments
`votes` by exactly 1, stamps `last_updated`, and saves the entry. -/
theorem upvote_dedup_invariant (e : TypologyEntry) (u : Int) (now : Nat)
    (hinv : voteInvariant e) :
    (∀ attempts : List (Int × Nat), voteInvariant (runVotes e attempts)) ∧
    (u ∈ e.voters → upvote e u now = ⟨e, false, false⟩) ∧
    (u ∉ e.voters →
      (upvote e u now).entry.voters = e.voters ++ [u] ∧
      (upvote e u now).entry.votes = e.votes + 1 ∧
      (upvote e u now).entry.last_updated = now ∧
      (upvote e u now).accepted = true ∧
      (upvote e u now).saved = true) := by
  refine ⟨fun attempts => runVotes_preserves_invariant attempts e hinv, ?_, ?_⟩
  · intro hu
    simp [upvote, hu]
  · intro hu
    simp [upvote, hu]

/-- Witness for C1: a fresh entry satisfies the invariant, and the theorem
applies to it with voter id 7 at time 5. -/
theorem upvote_dedup_invariant_witness :
    voteInvariant entryA ∧
    ((∀ attempts : List (Int × Nat), voteInvariant (runVotes entryA attempts)) ∧
     ((7 : Int) ∈ entryA.voters → upvote entryA 7 5 = ⟨entryA, false, false⟩) ∧
     ((7 : Int) ∉ entryA.voters →
       (upvote entryA 7 5).entry.voters = entryA.voters ++ [7] ∧
       (upvote entryA 7 5).entry.votes = entryA.votes + 1 ∧
       (upvote entryA 7 5).entry.last_updated = 5 ∧
       (upvote entryA 7 5).accepted = true ∧
       (upvote entryA 7 5).saved = true)) :=
  ⟨by decide, upvote_dedup_invariant entryA 7 5 (by decide)⟩

/-- An index catalog in which the key `(votes, -1)` already exists under a
name other than `popularity_idx`. -/
def staleCatalog : IndexCatalog :=
  [ ("_id_", [("_id", IndexVal.num 1)])
  , ("votes_old_idx", [("votes", IndexVal.num (-1))]) ]

/-- C2 (counterexample): on a catalog where `(votes desc)` exists under the
name `votes_old_idx`, reconciliation leaves the old index in place and does
not create `popularity_idx` at all — the create raises a key conflict which
is logged and skipped. The claimed drop-then-create never happens. -/
theorem reconcile_drop_counterexample :
    ("votes_old_idx", [("votes", IndexVal.num (-1))]) ∈
      reconcileIndexes staleCatalog ∧
    (∀ p ∈ reconcileIndexes staleCatalog, p.1 ≠ "popularity_idx") := by
  decide

lemma createIndex_extends (catalog : IndexCatalog) (keys : IndexKey)
    (name : String) :
    ∀ c, createIndex catalog keys name = .ok c →
      c = catalog ∨ c = catalog ++ [(name, keys)] := by
  intro c hc
  unfold createIndex at hc
  split at hc
  · exact Or.inl (by injection hc with h; exact h.symm)
  · split at hc
    · cases hc
    · split at hc
      · cases hc
      · exact Or.inr (by injection hc with h; exact h.symm)

lemma reconcileStep_sublist (snap cat : IndexCatalog) (op : IndexKey × String) :
    List.Sublist cat (reconcileStep snap cat op) := by
  unfold reconcileStep
  split
  · exact List.Sublist.refl _
  · split
    · rename_i c hc
      rcases createIndex_extends cat op.1 op.2 c hc with h | h
      · exact h ▸ List.Sublist.refl _
      · exact h ▸ List.sublist_append_left _ _
    · exact List.Sublist.refl _

lemma foldl_reconcileStep_sublist (snap : IndexCatalog)
    (ops : List (IndexKey × String)) (cat : IndexCatalog) :
    List.Sublist cat (ops.foldl (reconcileStep snap) cat) := by
  induction ops generalizing cat with
  | nil => exact List.Sublist.refl _
  | cons op rest ih =>
    exact (reconcileStep_sublist snap cat op).trans (ih _)

/-- C2 (amended): the reconciler never drops an index — every run only ever
appends, so the starting catalog is a sublist of the result. In the
same-key/different-name scenario the old index survives reconciliation and
`popularity_idx` is not created: its `create_index` call fails with a key
conflict that is logged and skipped. -/
theorem reconcile_never_drops (catalog : IndexCatalog) :
    List.Sublist catalog (reconcileIndexes catalog) ∧
    ("votes_old_idx", [("votes", IndexVal.num (-1))]) ∈
      reconcileIndexes staleCatalog ∧
    (∀ p ∈ reconcileIndexes staleCatalog, p.1 ≠ "popularity_idx") := by
  refine ⟨?_, by decide, by decide⟩
  unfold reconcileIndexes
  refine List.Sublist.trans ?_ (foldl_reconcileStep_sublist catalog indexOps _)
  split
  · exact List.Sublist.refl _
  · split
    · rename_i c hc
      rcases createIndex_extends catalog titleTextKey "title_text_idx" c hc with h | h
      · exact h ▸ List.Sublist.refl _
      · exact h ▸ List.sublist_append_left _ _
    · exact List.Sublist.refl _

/-- A creation-flow script in which the user picks "+ Create New Category"
and answers with whitespace only, then completes the remaining steps. -/
def emptyCategoryScript : CreationScript :=
  { rawTitle := "ENFP"
  , duplicateExists := false
  , categoryChoice := .picked "__new__"
  , categoryText := .entered "   "
  , topicChoice := .picked "Typology"
  , topicText := .timeout
  , hasReference := true
  , fetchOutcome := .ok "some description" "" }

/-- C3 (counterexample): an empty text answer for a new category name does
NOT abort the creation wizard — the flow continues and inserts an entry
whose `category` is the empty string, contradicting "no Entry is inserted"
after an empty text input. -/
theorem creation_empty_input_inserts :
    (createDefinitionFlow emptyCategoryScript 1 "alice" 9).isSome = true ∧
    (createDefinitionFlow emptyCategoryScript 1 "alice" 9).map
      TypologyEntry.category = some "" := by
  constructor <;> rfl

lemma resolveStrict_cancelled (text : TextOutcome) :
    resolveStrict .cancelled text = none := rfl

lemma resolveStrict_new_timeout :
    resolveStrict (.picked "__new__") .timeout = none := by
  simp [resolveStrict, getTextInput]

lemma resolveStrict_new_empty (raw : String) (h : pyStrip raw = "") :
    resolveStrict (.picked "__new__") (.entered raw) = none := by
  simp [resolveStrict, getTextInput, h]

lemma resolveLoose_cancelled (text : TextOutcome) :
    resolveLoose .cancelled text = none := rfl

lemma resolveLoose_new_timeout :
    resolveLoose (.picked "__new__") .timeout = none := by
  simp [resolveLoose]

lemma resolveLoose_new_entered (raw : String) :
    resolveLoose (.picked "__new__") (.entered raw) = some (pyStrip raw) := by
  simp [resolveLoose]

lemma resolveLoose_picked (t : String) (text : TextOutcome)
    (h : t ≠ "__new__") : resolveLoose (.picked t) text = some t := by
  simp [resolveLoose, h]

lemma executeMoveProcess_result (categories : List String)
    (script : MoveScript) (e : TypologyEntry) (now : Nat) :
    executeMoveProcess categories script e now = ⟨e, false⟩ ∨
    ∃ category topic,
      executeMoveProcess categories script e now =
        ⟨{ e with category := category, topic := topic, last_updated := now },
         true⟩ := by
  unfold executeMoveProcess
  repeat' split
  all_goals first
    | exact Or.inl rfl
    | exact Or.inr ⟨_, _, rfl⟩

/-- C3 (amended): every abort of the move wizard (cancellation, text-input
timeout, or empty text for a new name) leaves the entry unmutated, and every
completed-check failure means no mutation; in the creation flow,
cancellation and timeout at any step (and empty title / duplicate title /
missing or invalid content reply) abort without inserting — but an empty
text answer for a new category name does not abort: the flow proceeds and
inserts an entry whose `category` is the (possibly empty) stripped text. -/
theorem wizard_abort_spec (categories : List String) (script : MoveScript)
    (cs : CreationScript) (e : TypologyEntry) (aid : Int) (an : String)
    (now : Nat) :
    ((executeMoveProcess categories script e now).completed = false →
      (executeMoveProcess categories script e now).entry = e) ∧
    (script.categoryChoice = .cancelled →
      executeMoveProcess categories script e now = ⟨e, false⟩) ∧
    (script.topicChoice = .cancelled →
      executeMoveProcess categories script e now = ⟨e, false⟩) ∧
    (script.categoryChoice = .picked "__new__" →
      script.categoryText = .timeout →
      executeMoveProcess categories script e now = ⟨e, false⟩) ∧
    (∀ raw, script.categoryChoice = .picked "__new__" →
      script.categoryText = .entered raw → pyStrip raw = "" →
      executeMoveProcess categories script e now = ⟨e, false⟩) ∧
    (script.topicChoice = .picked "__new__" →
      script.topicText = .timeout →
      executeMoveProcess categories script e now = ⟨e, false⟩) ∧
    (∀ raw, script.topicChoice = .picked "__new__" →
      script.topicText = .entered raw → pyStrip raw = "" →
      executeMoveProcess categories script e now = ⟨e, false⟩) ∧
    (pyStrip cs.rawTitle = "" → createDefinitionFlow cs aid an now = none) ∧
    (cs.duplicateExists = true → createDefinitionFlow cs aid an now = none) ∧
    (cs.categoryChoice = .cancelled →
      createDefinitionFlow cs aid an now = none) ∧
    (cs.topicChoice = .cancelled → createDefinitionFlow cs aid an now = none) ∧
    (cs.categoryChoice = .picked "__new__" → cs.categoryText = .timeout →
      createDefinitionFlow cs aid an now = none) ∧
    (cs.topicChoice = .picked "__new__" → cs.topicText = .timeout →
      createDefinitionFlow cs aid an now = none) ∧
    (cs.hasReference = false → createDefinitionFlow cs aid an now = none) ∧
    (cs.fetchOutcome = .failed → createDefinitionFlow cs aid an now = none) ∧
    (cs.fetchOutcome = .botAuthor → createDefinitionFlow cs aid an now = none) ∧
    (∀ raw t c i, cs.categoryChoice = .picked "__new__" →
      cs.categoryText = .entered raw → cs.topicChoice = .picked t →
      t ≠ "__new__" → pyStrip cs.rawTitle ≠ "" → cs.duplicateExists = false →
      cs.hasReference = true → cs.fetchOutcome = .ok c i →
      createDefinitionFlow cs aid an now =
        some { title := pyStrip cs.rawTitle, category := pyStrip raw, topic := t
             , description := c, author_id := aid, author_name := an
             , created_at := now, last_updated := now
             , image_attachment := i }) := by
  obtain ⟨mc, mct, mt, mtt⟩ := script
  obtain ⟨title, dup, cc, cct, ct, ctt, href, fo⟩ := cs
  refine ⟨?_, ?_, ?_, ?_, ?_, ?_, ?_, ?_, ?_, ?_, ?_, ?_, ?_, ?_, ?_, ?_, ?_⟩
  · intro h
    rcases executeMoveProcess_result categories ⟨mc, mct, mt, mtt⟩ e now with
      hr | ⟨c2, t2, hr⟩
    · rw [hr]
    · rw [hr] at h
      exact absurd h (by simp)
  · rintro rfl
    simp [executeMoveProcess, resolveStrict_cancelled]
  · rintro rfl
    rcases h : resolveStrict mc mct with _ | cat <;>
      simp [executeMoveProcess, h, resolveStrict_cancelled]
  · rintro rfl rfl
    simp [executeMoveProcess, resolveStrict_new_timeout]
  · rintro raw rfl rfl hraw
    simp [executeMoveProcess, resolveStrict_new_empty raw hraw]
  · rintro rfl rfl
    rcases h : resolveStrict mc mct with _ | cat <;>
      simp [executeMoveProcess, h, resolveStrict_new_timeout]
  · rintro raw rfl rfl hraw
    rcases h : resolveStrict mc mct with _ | cat <;>
      simp [executeMoveProcess, h, resolveStrict_new_empty raw hraw]
  · intro h
    simp [createDefinitionFlow, h]
  · rintro rfl
    simp [createDefinitionFlow]
  · rintro rfl
    simp [createDefinitionFlow, resolveLoose_cancelled]
  · rintro rfl
    rcases h : resolveLoose cc cct with _ | cat <;>
      simp [createDefinitionFlow, h, resolveLoose_cancelled]
  · rintro rfl rfl
    simp [createDefinitionFlow, resolveLoose_new_timeout]
  · rintro rfl rfl
    rcases h : resolveLoose cc cct with _ | cat <;>
      simp [createDefinitionFlow, h, resolveLoose_new_timeout]
  · rintro rfl
    rcases h1 : resolveLoose cc cct with _ | cat <;>
      rcases h2 : resolveLoose ct ctt with _ | top <;>
        simp [createDefinitionFlow, h1, h2]
  · rintro rfl
    rcases h1 : resolveLoose cc cct with _ | cat <;>
      rcases h2 : resolveLoose ct ctt with _ | top <;>
        simp [createDefinitionFlow, h1, h2]
  · rintro rfl
    rcases h1 : resolveLoose cc cct with _ | cat <;>
      rcases h2 : resolveLoose ct ctt with _ | top <;>
        simp [createDefinitionFlow, h1, h2]
  · rintro raw t c i rfl rfl rfl ht htitle rfl rfl rfl
    simp [createDefinitionFlow, resolveLoose_new_entered,
      resolveLoose_picked t ctt ht, htitle]

/-- A move-wizard script whose category dropdown was cancelled. -/
def moveCancelScript : MoveScript :=
  ⟨.cancelled, .timeout, .cancelled, .timeout⟩

/-- A creation-flow script that creates a new category via text input and
then completes every remaining step. -/
def newCategoryScript : CreationScript :=
  { rawTitle := " INTJ "
  , duplicateExists := false
  , categoryChoice := .picked "__new__"
  , categoryText := .entered "  Socionics "
  , topicChoice := .picked "Types"
  , topicText := .timeout
  , hasReference := true
  , fetchOutcome := .ok "body text" "attachment.png" }

/-- Witness for C3 (amended): a cancelled move wizard leaves the entry
untouched, and a completed creation flow with a text-created category
inserts the stripped values. -/
theorem wizard_abort_spec_witness :
    executeMoveProcess ["General"] moveCancelScript entryA 3 =
      ⟨entryA, false⟩ ∧
    createDefinitionFlow newCategoryScript 2 "bob" 4 =
      some { title := pyStrip newCategoryScript.rawTitle
           , category := pyStrip "  Socionics ", topic := "Types"
           , description := "body text", author_id := 2, author_name := "bob"
           , created_at := 4, last_updated := 4
           , image_attachment := "attachment.png" } := by
  constructor
  · exact (wizard_abort_spec ["General"] moveCancelScript newCategoryScript
      entryA 2 "bob" 3).2.1 rfl
  · exact (wizard_abort_spec ["General"] moveCancelScript newCategoryScript
      entryA 2 "bob" 4).2.2.2.2.2.2.2.2.2.2.2.2.2.2.2.2
      "  Socionics " "Types" "body text" "attachment.png"
      rfl rfl rfl (by decide) (by decide) rfl rfl rfl

/-- C4 (counterexample): when every initialization attempt fails, the retry
loop raises `RuntimeError` — but `on_ready` catches it, so the process stays
alive and keeps serving user actions with an unverified schema,
contradicting "does not go on to serve user actions". -/
theorem startup_serving_counterexample :
    initializeDatabase (fun _ => .failure "connection refused") =
      .error "Failed to initialize database after 3 attempts" ∧
    (onReady (fun _ => .failure "connection refused")).servesUserActions
      = true ∧
    (onReady (fun _ => .failure "connection refused")).initialized = false := by
  refine ⟨rfl, rfl, rfl⟩

/-- C4 (amended): `initialize_database` makes at most 3 attempts — it
succeeds as soon as an attempt succeeds and raises
`RuntimeError("Failed to initialize database after 3 attempts")` when all
three fail — but `on_ready` catches the error, logs it, and the process
continues to serve user actions either way. -/
theorem startup_retry_spec (outcomes : Nat → AttemptOutcome) :
    (outcomes 0 = .success → initializeDatabase outcomes = .ok ()) ∧
    (∀ m0, outcomes 0 = .failure m0 → outcomes 1 = .success →
      initializeDatabase outcomes = .ok ()) ∧
    (∀ m0 m1, outcomes 0 = .failure m0 → outcomes 1 = .failure m1 →
      outcomes 2 = .success → initializeDatabase outcomes = .ok ()) ∧
    (∀ m0 m1 m2, outcomes 0 = .failure m0 → outcomes 1 = .failure m1 →
      outcomes 2 = .failure m2 →
      initializeDatabase outcomes =
        .error "Failed to initialize database after 3 attempts") ∧
    (onReady outcomes).servesUserActions = true ∧
    (∀ msg, initializeDatabase outcomes = .error msg →
      onReady outcomes = ⟨false, true⟩) := by
  refine ⟨?_, ?_, ?_, ?_, ?_, ?_⟩
  · intro h0
    simp [initializeDatabase, maxRetries, initFrom, h0]
  · intro m0 h0 h1
    simp [initializeDatabase, maxRetries, initFrom, h0, h1]
  · intro m0 m1 h0 h1 h2
    simp [initializeDatabase, maxRetries, initFrom, h0, h1, h2]
  · intro m0 m1 m2 h0 h1 h2
    simp [initializeDatabase, maxRetries, initFrom, h0, h1, h2]
  · unfold onReady
    split <;> rfl
  · intro msg hmsg
    unfold onReady
    split
    · rename_i heq
      rw [hmsg] at heq
      cases heq
    · rfl

/-- Witness for C4 (amended): with a store that answers on the third
attempt, initialization succeeds; with a store that never answers, the
process still serves. -/
theorem startup_retry_spec_witness :
    initializeDatabase
      (fun n => if n < 2 then .failure "timeout" else .success) = .ok () ∧
    (onReady (fun _ => AttemptOutcome.failure "down")).servesUserActions
      = true := by
  constructor
  · exact (startup_retry_spec
      (fun n => if n < 2 then .failure "timeout" else .success)).2.2.1
      "timeout" "timeout" rfl rfl rfl
  · exact (startup_retry_spec (fun _ => AttemptOutcome.failure "down")).2.2.2.2.1

lemma transformLegacy_decodable (d : LegacyDoc) (h : d.decodable) :
    transformLegacy d = .ok (entryOf d) := by
  obtain ⟨h1, h2, h3, h4, h5, h6⟩ := h
  rcases d with ⟨term, text, aid, aname, cat, lat, iu, ref, v, vo⟩
  cases term <;> cases text <;> cases aid <;> cases aname <;>
    cases cat <;> cases lat <;> simp_all [transformLegacy, entryOf]

lemma migrateLoop_ok (docs : List LegacyDoc) (cur : List TypologyEntry)
    (h : ∀ d ∈ docs, d.decodable) :
    migrateLoop docs cur = .ok (cur ++ docs.map entryOf) := by
  induction docs generalizing cur with
  | nil => simp [migrateLoop]
  | cons d rest ih =>
    have hd : d.decodable := h d (List.mem_cons_self d rest)
    simp only [migrateLoop, transformLegacy_decodable d hd]
    rw [ih (cur ++ [entryOf d]) (fun x hx => h x (List.mem_cons_of_mem d hx))]
    simp

/-- C5: migration runs exactly when the legacy collection exists and the
current collection is empty; it transforms every legacy document
field-by-field (`term` → `title`, `text` → `description`, category and topic
become `"General"`, absent optional fields get their defaults), inserts them
in order, and renames the legacy collection to the backup name instead of
deleting it. When the legacy collection is absent or the current collection
is non-empty, the store is left untouched. -/
theorem migration_contract (s : DbState) (docs : List LegacyDoc)
    (h1 : s.legacy = some docs) (h2 : s.current = [])
    (h3 : ∀ d ∈ docs, d.decodable) :
    migrate s = .ok { legacy := none, current := docs.map entryOf
                    , backup := some docs } ∧
    (∀ d, d.decodable → transformLegacy d = .ok (entryOf d)) ∧
    (∀ t : DbState, t.legacy = none → migrate t = .ok t) ∧
    (∀ t : DbState, ∀ ds, t.legacy = some ds → t.current ≠ [] →
      migrate t = .ok t) := by
  refine ⟨?_, fun d hd => transformLegacy_decodable d hd, ?_, ?_⟩
  · simp only [migrate, h1, h2]
    rw [migrateLoop_ok docs [] h3]
    simp
  · intro t htl
    simp [migrate, htl]
  · intro t ds hds hne
    simp [migrate, hds, List.length_eq_zero, hne]

/-- The pre-migration store of Scenario C: one legacy document, an empty
current collection, no backup. -/
def legacyDocC : LegacyDoc :=
  { term := some "T", text := some "D", author_id := some 1
  , author_name := some "ann", created_at := some 10
  , last_updated := some 11 }

def preMigrationC : DbState := ⟨some [legacyDocC], [], none⟩

/-- Witness for C5 (Scenario C): after migration the current collection has
one entry with `title = "T"`, `category = topic = "General"`,
`description = "D"`, and the legacy collection survives as the backup. -/
theorem migration_contract_witness :
    migrate preMigrationC =
      .ok { legacy := none, current := [legacyDocC].map entryOf
          , backup := some [legacyDocC] } ∧
    (entryOf legacyDocC).title = "T" ∧
    (entryOf legacyDocC).category = "General" ∧
    (entryOf legacyDocC).topic = "General" ∧
    (entryOf legacyDocC).description = "D" := by
  refine ⟨(migration_contract preMigrationC [legacyDocC] rfl rfl
    (by decide)).1, by decide, by decide, by decide, by decide⟩

lemma migrateLoop_length (docs : List LegacyDoc) (cur r : List TypologyEntry)
    (h : migrateLoop docs cur = .ok r) :
    r.length = cur.length + docs.length := by
  induction docs generalizing cur with
  | nil =>
    simp only [migrateLoop] at h
    cases h
    simp
  | cons d rest ih =>
    simp only [migrateLoop] at h
    rcases htr : transformLegacy d with msg | entry
    · rw [htr] at h
      cases h
    · rw [htr] at h
      have := ih (cur ++ [entry]) h
      simp at this
      simp [this]
      omega

/-- C6: migration is idempotent — a second run after any successful run
changes nothing, because the first successful run either already did nothing
or has renamed the legacy collection away; and a completed migration of a
non-empty legacy collection leaves the current collection non-empty and the
legacy collection gone. -/
theorem migration_idempotent (s s' : DbState) (docs : List LegacyDoc)
    (h : migrate s = .ok s') :
    migrate s' = .ok s' ∧
    (s.legacy = some docs → s.current = [] → docs ≠ [] →
      s'.current ≠ [] ∧ s'.legacy = none) := by
  rcases hleg : s.legacy with _ | docs0
  · simp only [migrate, hleg] at h
    cases h
    constructor
    · simp [migrate, hleg]
    · intro hd
      cases hd
  · by_cases hcur : s.current.length = 0
    · simp only [migrate, hleg, hcur, if_pos] at h
      rcases hml : migrateLoop docs0 s.current with msg | newCur
      · rw [hml] at h
        cases h
      · rw [hml] at h
        cases h
        constructor
        · simp [migrate]
        · intro hd hcur2 hne
          injection hd with hd
          subst hd
          refine ⟨?_, rfl⟩
          show newCur ≠ []
          have hlen := migrateLoop_length _ _ _ hml
          rw [hcur2] at hlen
          simp only [List.length_nil, Nat.zero_add] at hlen
          intro hnil
          rw [hnil] at hlen
          simp only [List.length_nil] at hlen
          exact hne (List.length_eq_zero.mp hlen.symm)
    · simp only [migrate, hleg, hcur, if_neg, if_false] at h
      cases h
      constructor
      · simp [migrate, hleg, hcur]
      · intro hd hcur2
        rw [hcur2] at hcur
        simp at hcur

/-- A second legacy store used to exercise idempotence. -/
def legacyDocD : LegacyDoc :=
  { term := some "X", text := some "Y", author_id := some 5
  , author_name := some "carl", created_at := some 1
  , last_updated := some 2 }

def preMigrationD : DbState := ⟨some [legacyDocD], [], none⟩

def postMigrationD : DbState :=
  ⟨none, [entryOf legacyDocD], some [legacyDocD]⟩

/-- Witness for C6: after the first migration of a one-document legacy
collection, the second run is a no-op and the target is non-empty. -/
theorem migration_idempotent_witness :
    migrate postMigrationD = .ok postMigrationD ∧
    (postMigrationD.current ≠ [] ∧ postMigrationD.legacy = none) := by
  have h := migration_idempotent preMigrationD postMigrationD [legacyDocD]
    rfl
  exact ⟨h.1, h.2 rfl rfl (by decide)⟩

/-- A legacy row with no `term` field, followed by a perfectly well-formed
row. -/
def badLegacyDoc : LegacyDoc :=
  { text := some "orphan body", author_id := some 2
  , author_name := some "bob", created_at := some 1
  , last_updated := some 1 }

def goodLegacyDoc : LegacyDoc :=
  { term := some "Enneagram", text := some "nine types"
  , author_id := some 3, author_name := some "cy"
  , created_at := some 2, last_updated := some 2 }

def badRowState : DbState := ⟨some [badLegacyDoc, goodLegacyDoc], [], none⟩

/-- C9 (counterexample): a legacy row missing `term` is not logged-and-
skipped — the `KeyError` aborts the whole migration, the well-formed row
behind it is never migrated, and the legacy collection is not renamed. -/
theorem migration_skip_counterexample :
    migrate badRowState = .error ("KeyError: term", badRowState) ∧
    badRowState.current = [] := ⟨rfl, rfl⟩

lemma migrateLoop_error (pre post : List LegacyDoc) (bad : LegacyDoc)
    (cur : List TypologyEntry) (hpre : ∀ d ∈ pre, d.decodable)
    (hbad : bad.term = none) :
    migrateLoop (pre ++ bad :: post) cur =
      .error ("KeyError: term", cur ++ pre.map entryOf) := by
  induction pre generalizing cur with
  | nil =>
    simp only [List.nil_append, migrateLoop]
    unfold transformLegacy
    rw [hbad]
    simp
  | cons d rest ih =>
    have hd : d.decodable := hpre d (List.mem_cons_self d rest)
    simp only [List.cons_append, migrateLoop, transformLegacy_decodable d hd]
    rw [show rest.append (bad :: post) = rest ++ bad :: post from rfl,
        ih _ (fun x hx => hpre x (List.mem_cons_of_mem d hx))]
    simp

/-- C9 (amended): a legacy row missing a required field (here `term`) raises
`KeyError`, which aborts the entire migration loop: the rows before it stay
inserted, the bad row and every row after it are not migrated, the legacy
collection is not renamed, and the error propagates to the retry loop of
`initialize_database`. -/
theorem migration_abort_spec (s : DbState) (pre post : List LegacyDoc)
    (bad : LegacyDoc) (h1 : s.legacy = some (pre ++ bad :: post))
    (h2 : s.current = []) (hpre : ∀ d ∈ pre, d.decodable)
    (hbad : bad.term = none) :
    migrate s = .error ("KeyError: term",
      { legacy := s.legacy, current := pre.map entryOf
      , backup := s.backup }) := by
  simp only [migrate, h1, h2]
  rw [migrateLoop_error pre post bad [] hpre hbad]
  simp [h1]

/-- Witness for C9 (amended): with a good row before the bad one, migration
aborts mid-way leaving only the good row inserted. -/
theorem migration_abort_spec_witness :
    migrate ⟨some [goodLegacyDoc, badLegacyDoc], [], none⟩ =
      .error ("KeyError: term",
        ⟨some [goodLegacyDoc, badLegacyDoc], [entryOf goodLegacyDoc],
         none⟩) :=
  migration_abort_spec _ [goodLegacyDoc] [] badLegacyDoc rfl rfl
    (by decide) rfl

lemma applyAction_preserves (s : SessionState) (h : pageInvariant s)
    (a : PageAction) : pageInvariant (applyAction s a) := by
  cases a with
  | back =>
    intro hne
    simp only [applyAction, prevPage] at hne ⊢
    have := h hne
    omega
  | forward =>
    simp only [applyAction, nextPage]
    split
    · rename_i hguard
      intro hne
      simp only at hne ⊢
      omega
    · exact h
  | deleteCur =>
    simp only [applyAction, deleteCurrent]
    split
    · rename_i hemp
      intro hne
      simp only at hne
      exact absurd (List.isEmpty_iff.mp hemp) hne
    · rename_i hemp
      have hpos : 0 < (s.entries.eraseIdx s.page).length := by
        rcases hl : (s.entries.eraseIdx s.page) with _ | ⟨x, xs⟩
        · rw [hl] at hemp
          simp at hemp
        · simp
      split
      · intro _
        simp only
        omega
      · rename_i hge
        intro _
        simp only
        omega

lemma foldl_applyAction_preserves (acts : List PageAction) (s : SessionState)
    (h : pageInvariant s) : pageInvariant (acts.foldl applyAction s) := by
  induction acts generalizing s with
  | nil => exact h
  | cons a rest ih => exact ih _ (applyAction_preserves s h a)

/-- C7: starting from a session whose cursor is in bounds, any sequence of
page-back, page-forward, and delete actions keeps the cursor within
`[0, pageCount-1]` whenever the list is non-empty; paging back at page 0 and
forward at the last page are no-ops, and a delete that leaves the list
non-empty clamps the cursor back into bounds. -/
theorem pagination_bounds (s : SessionState) (h : pageInvariant s) :
    (∀ acts : List PageAction, pageInvariant (acts.foldl applyAction s)) ∧
    (s.page = 0 → prevPage s = s) ∧
    (s.page = s.entries.length - 1 → nextPage s = s) ∧
    (∀ a : PageAction, pageInvariant (applyAction s a)) := by
  refine ⟨fun acts => foldl_applyAction_preserves acts s h, ?_, ?_,
    fun a => applyAction_preserves s h a⟩
  · intro h0
    cases s
    simp_all [prevPage]
  · intro hl
    unfold nextPage
    split
    · rename_i hguard
      omega
    · rfl

/-- A two-entry browsing session with the cursor on the second page. -/
def sessionExample : SessionState := ⟨[entryA, entryA], 1⟩

/-- Witness for C7: the invariant holds on a concrete session and is kept by
a concrete action sequence ending in a delete. -/
theorem pagination_bounds_witness :
    pageInvariant sessionExample ∧
    pageInvariant
      ([PageAction.forward, PageAction.deleteCur, PageAction.back].foldl
        applyAction sessionExample) :=
  ⟨by decide, (pagination_bounds sessionExample (by decide)).1 _⟩

/-- C8: an actor whose id differs from the entry's `author_id` is rejected
with an authorization message on edit and move, and — when additionally not
holding the configured moderator role — on delete; in each case the entry,
the session list, and the store are left unchanged (`deleted = false`). -/
theorem authorization_guards (actorId : Int) (roles : List Int)
    (modRoleId : Int) (e : TypologyEntry) (newDesc newRef : String)
    (attachment : Option String) (categories : List String)
    (script : MoveScript) (s : SessionState) (now : Nat)
    (hneq : actorId ≠ e.author_id) :
    editFlow actorId e newDesc newRef attachment now =
      (.rejected "You can only edit your own entries", e) ∧
    moveFlow actorId e categories script now =
      (.rejected "You can only move your own entries", ⟨e, false⟩) ∧
    (isMod modRoleId roles = false →
      deleteFlow actorId roles modRoleId s e =
        (.rejected "You can only delete your own entries", s, false)) := by
  refine ⟨?_, ?_, ?_⟩
  · simp [editFlow, hneq]
  · simp [moveFlow, hneq]
  · intro hmod
    simp [deleteFlow, hneq, hmod]

/-- Witness for C8: actor 99 is not the author of `entryA` (author 1), holds
no roles, and no moderator role is configured; all three guards reject. -/
theorem authorization_guards_witness :
    editFlow 99 entryA "d2" "r2" none 7 =
      (.rejected "You can only edit your own entries", entryA) ∧
    moveFlow 99 entryA ["General"] moveCancelScript 7 =
      (.rejected "You can only move your own entries", ⟨entryA, false⟩) ∧
    deleteFlow 99 [] 0 ⟨[entryA], 0⟩ entryA =
      (.rejected "You can only delete your own entries", ⟨[entryA], 0⟩,
       false) := by
  have h := authorization_guards 99 [] 0 entryA "d2" "r2" none ["General"]
    moveCancelScript ⟨[entryA], 0⟩ 7 (by decide)
  exact ⟨h.1, h.2.1, h.2.2 (by decide)⟩

/-- C10: category deletion sends every entry of the named category to
`category = topic = "General"`, topic deletion rewrites only `topic` and
leaves `category` alone; neither operation removes a document, touches an
entry outside the named bucket, or writes any other field — in particular
`last_updated` is not stamped. -/
theorem category_topic_deletion_frame (name : String)
    (store : List TypologyEntry) (i : Nat) (e e' f' : TypologyEntry)
    (he : store[i]? = some e)
    (hc : (deleteCategory name store)[i]? = some e')
    (ht : (deleteTopic name store)[i]? = some f') :
    (deleteCategory name store).length = store.length ∧
    (deleteTopic name store).length = store.length ∧
    e'.last_updated = e.last_updated ∧
    f'.last_updated = e.last_updated ∧
    (e.category = name → e'.category = "General" ∧ e'.topic = "General") ∧
    (e.category ≠ name → e' = e) ∧
    e'.title = e.title ∧
    e'.description = e.description ∧
    e'.author_id = e.author_id ∧
    e'.author_name = e.author_name ∧
    e'.created_at = e.created_at ∧
    e'.image_url = e.image_url ∧
    e'.image_attachment = e.image_attachment ∧
    e'.reference = e.reference ∧
    e'.votes = e.votes ∧
    e'.voters = e.voters ∧
    (e.topic = name → f'.topic = "General") ∧
    (e.topic ≠ name → f' = e) ∧
    f'.category = e.category ∧
    f'.title = e.title ∧
    f'.description = e.description ∧
    f'.author_id = e.author_id ∧
    f'.author_name = e.author_name ∧
    f'.created_at = e.created_at ∧
    f'.image_url = e.image_url ∧
    f'.image_attachment = e.image_attachment ∧
    f'.reference = e.reference ∧
    f'.votes = e.votes ∧
    f'.voters = e.voters := by
  have hc' : e' = (if e.category = name then
      { e with category := "General", topic := "General" } else e) := by
    simp only [deleteCategory, List.getElem?_map, he, Option.map_some'] at hc
    exact (Option.some.injEq _ _ ▸ hc).symm
  have ht' : f' = (if e.topic = name then
      { e with topic := "General" } else e) := by
    simp only [deleteTopic, List.getElem?_map, he, Option.map_some'] at ht
    exact (Option.some.injEq _ _ ▸ ht).symm
  subst hc'
  subst ht'
  refine ⟨by simp [deleteCategory], by simp [deleteTopic], ?_⟩
  by_cases hcat : e.category = name <;> by_cases htop : e.topic = name <;>
    simp [hcat, htop]

/-- Witness for C2 (amended): the old same-key index survives reconciliation
and in particular is not the desired `popularity_idx`. -/
theorem reconcile_never_drops_witness :
    ("votes_old_idx", [("votes", IndexVal.num (-1))]) ∈
      reconcileIndexes staleCatalog ∧
    ("votes_old_idx" : String) ≠ "popularity_idx" :=
  ⟨(reconcile_never_drops staleCatalog).2.1,
   (reconcile_never_drops staleCatalog).2.2 _
     (reconcile_never_drops staleCatalog).2.1⟩

/-- An entry living in the category named `Old`. -/
def entryInOld : TypologyEntry :=
  { title := "Si", category := "Old", topic := "Intro"
  , description := "desc", author_id := 4, author_name := "dora"
  , created_at := 2, last_updated := 3, votes := 1, voters := [9] }

/-- Witness for C10: deleting category `Old` over a one-entry store keeps
the document count and leaves `last_updated` untouched. -/
theorem category_topic_deletion_frame_witness :
    (deleteCategory "Old" [entryInOld]).length =
      ([entryInOld] : List TypologyEntry).length ∧
    (deleteTopic "Old" [entryInOld]).length =
      ([entryInOld] : List TypologyEntry).length ∧
    ({ entryInOld with category := "General", topic := "General" } :
      TypologyEntry).last_updated = entryInOld.last_updated := by
  have h := category_topic_deletion_frame "Old" [entryInOld] 0 entryInOld
    { entryInOld with category := "General", topic := "General" } entryInOld
    rfl (by decide) (by decide)
  exact ⟨h.1, h.2.1, h.2.2.1⟩

end TypologyNerd
